import Mathlib

/-!
Verification of the go-webview2 repository's RPC bridge, message loop,
loader shim and installer bootstrap, as a shallow embedding in Lean 4.

The RPC bridge (`msgcb`, `callbinding`, `Bind`, `Dispatch` in the main
package) is embedded over an explicit universe of JSON wire values and Go
values; reflective callables become `GoFunc` records carrying their
parameter types, variadic flag, declared result count and a call function
producing typed result slots.  Stateful parts (the binding table, the
deferred-closure queue, the message loop, the loader's one-time in-memory
initializer, the installer flow) are embedded as explicit state passing.
-/

/-- JSON wire values carried in the `params` array of an RPC message.  Each
`json.RawMessage` in the Go code denotes the JSON value it parses to. -/
inductive JValue where
  | null : JValue
  | jbool : Bool → JValue
  | num : Int → JValue
  | str : String → JValue
  | arr : List JValue → JValue
deriving Repr

/-- Go-side parameter types the dispatcher can decode into (the `reflect.Type`
of a callable's parameter). -/
inductive GoType where
  | tInt : GoType
  | tString : GoType
  | tBool : GoType
  | slice : GoType → GoType
deriving Repr, DecidableEq

/-- Go runtime values produced by decoding params and returned by callables.
`vErrObj` is a non-nil value whose dynamic type implements `error` (it
marshals as an empty JSON object, like `*errors.errorString`). -/
inductive GoValue where
  | vInt : Int → GoValue
  | vStr : String → GoValue
  | vBool : Bool → GoValue
  | vSlice : List GoValue → GoValue
  | vErrObj : String → GoValue
deriving Repr

/-- Hex digit character, for JSON `\u00XX` escapes. -/
def hexDigit (n : Nat) : Char :=
  if n < 10 then Char.ofNat (48 + n) else Char.ofNat (87 + n)

/-- Escaping of one character as in Go's `encoding/json` string encoder
(HTML-escaping variant used by `json.Marshal`). -/
def jsonEscapeChar (c : Char) : String :=
  if c = Char.ofNat 34 then "\\\""
  else if c = Char.ofNat 92 then "\\\\"
  else if c = Char.ofNat 10 then "\\n"
  else if c = Char.ofNat 13 then "\\r"
  else if c = Char.ofNat 9 then "\\t"
  else if c.toNat < 32 then
    "\\u00" ++ String.mk [hexDigit (c.toNat / 16), hexDigit (c.toNat % 16)]
  else if c = Char.ofNat 60 then "\\u003c"
  else if c = Char.ofNat 62 then "\\u003e"
  else if c = Char.ofNat 38 then "\\u0026"
  else if c.toNat = 0x2028 then "\\u2028"
  else if c.toNat = 0x2029 then "\\u2029"
  else String.mk [c]

/-- JSON encoding of a string, as `json.Marshal` on a Go string.  This is
`jsString` in the source applied to a string value. -/
def jsonQuote (s : String) : String :=
  "\"" ++ String.join (s.data.map jsonEscapeChar) ++ "\""

/-- Kind word used inside Go's json type-mismatch error messages. -/
def JValue.kindWord : JValue → String
  | .null => "null"
  | .jbool _ => "bool"
  | .num _ => "number"
  | .str _ => "string"
  | .arr _ => "array"

/-- Name of a Go type as it appears in json error messages. -/
def GoType.name : GoType → String
  | .tInt => "int"
  | .tString => "string"
  | .tBool => "bool"
  | .slice t => "[]" ++ t.name

/-- Element type of a slice type (`reflect.Type.Elem`); only called on the
trailing variadic parameter, whose Go type is always a slice. -/
def GoType.elem : GoType → GoType
  | .slice t => t
  | t => t

mutual

/-- Behaviour of `json.Unmarshal(raw, ptr)` where `ptr` is a fresh pointer to
a value of the given Go type (`reflect.New` in `callbinding`): JSON `null`
into a non-pointer target is a no-op leaving the zero value, matching kinds
decode, and any other shape is a type-mismatch error. -/
def decode : GoType → JValue → Except String GoValue
  | .tInt, .null => .ok (.vInt 0)
  | .tInt, .num n => .ok (.vInt n)
  | .tString, .null => .ok (.vStr "")
  | .tString, .str s => .ok (.vStr s)
  | .tBool, .null => .ok (.vBool false)
  | .tBool, .jbool b => .ok (.vBool b)
  | .slice _, .null => .ok (.vSlice [])
  | .slice t, .arr xs =>
    match decodeList t xs with
    | .error e => .error e
    | .ok vs => .ok (.vSlice vs)
  | t, v =>
    .error ("json: cannot unmarshal " ++ v.kindWord ++ " into Go value of type " ++ t.name)

/-- Element-wise decoding of a JSON array into a Go slice. -/
def decodeList : GoType → List JValue → Except String (List GoValue)
  | _, [] => .ok []
  | t, x :: xs =>
    match decode t x with
    | .error e => .error e
    | .ok v =>
      match decodeList t xs with
      | .error e => .error e
      | .ok vs => .ok (v :: vs)

end

mutual

/-- Marshaling of a Go value back to JSON text (`json.Marshal` in `msgcb`). -/
def jsonMarshal : GoValue → String
  | .vInt n => toString n
  | .vStr s => jsonQuote s
  | .vBool b => if b then "true" else "false"
  | .vSlice xs => "[" ++ jsonMarshalList xs ++ "]"
  | .vErrObj _ => "\x7b\x7d"

/-- Comma-separated marshaling of slice elements. -/
def jsonMarshalList : List GoValue → String
  | [] => ""
  | [x] => jsonMarshal x
  | x :: xs => jsonMarshal x ++ "," ++ jsonMarshalList xs

end

/-- Text produced by `json.Marshal` on the `interface\x7b\x7d` result of
`callbinding` (a `nil` interface marshals as `null`). -/
def marshalIface : Option GoValue → String
  | none => "null"
  | some v => jsonMarshal v

/-- Marshaling of the `interface\x7b\x7d` result of `callbinding`.  On this
value universe `json.Marshal` never fails, but the error branch of `msgcb`
is kept. -/
def jsonMarshalRes (v : Option GoValue) : Except String String :=
  .ok (marshalIface v)

/-- One result slot of a reflective call (`res[i]` in `callbinding`): either
a slot whose static type does not implement `error` holding an
`interface\x7b\x7d` value (`none` = nil interface), or an error-typed slot
(`none` = nil error, `some m` = a non-nil error whose `Error()` text is
`m`). -/
inductive RetSlot where
  | plain : Option GoValue → RetSlot
  | erro : Option String → RetSlot
deriving Repr

/-- The `interface\x7b\x7d` value read off a result slot
(`res[i].Interface()`). -/
def RetSlot.iface : RetSlot → Option GoValue
  | .plain v => v
  | .erro none => none
  | .erro (some m) => some (.vErrObj m)

/-- A registered callable as the reflective dispatcher sees it: parameter
types (`Type.In`), variadic flag, declared number of results
(`Type.NumOut`), and the underlying function on decoded argument lists. -/
structure GoFunc where
  inTypes : List GoType
  isVariadic : Bool
  numOut : Nat
  call : List GoValue → List RetSlot

/-- Number of declared parameters (`Type.NumIn`). -/
def GoFunc.numIn (f : GoFunc) : Nat := f.inTypes.length

/-- The wire message `\x7bid, method, params\x7d` (`rpcMessage` in the
source). -/
structure RpcMessage where
  ID : Int
  Method : String
  Params : List JValue

/-- Target type for decoding positional param `i`: the element type of the
trailing parameter when variadic and `i >= numIn-1`, otherwise `In(i)`. -/
def argType (f : GoFunc) (i : Nat) : GoType :=
  if f.isVariadic ∧ f.numIn - 1 ≤ i then (f.inTypes.getD (f.numIn - 1) .tInt).elem
  else f.inTypes.getD i .tInt

/-- Positional decoding of params starting at index `i`, stopping at the
first decode error, as the loop in `callbinding`. -/
def decodeArgsFrom (f : GoFunc) : Nat → List JValue → Except String (List GoValue)
  | _, [] => .ok []
  | i, p :: ps =>
    match decode (argType f i) p with
    | .error e => .error e
    | .ok v =>
      match decodeArgsFrom f (i + 1) ps with
      | .error e => .error e
      | .ok vs => .ok (v :: vs)

/-- Decoding of the whole params array. -/
def decodeArgs (f : GoFunc) (ps : List JValue) : Except String (List GoValue) :=
  decodeArgsFrom f 0 ps

/-- The arity test of `callbinding`: variadic callables need at least
`numIn-1` params, fixed-arity callables exactly `numIn`. -/
def arityMismatch (f : GoFunc) (ps : List JValue) : Bool :=
  (f.isVariadic && decide (ps.length < f.numIn - 1)) ||
  (!f.isVariadic && decide (ps.length ≠ f.numIn))

/-- The switch on `len(res)` at the end of `callbinding`, interpreting the
call's results by arity. -/
def interpretResults : List RetSlot → Option GoValue × Option String
  | [] => (none, none)
  | [.erro (some m)] => (none, some m)
  | [.erro none] => (none, none)
  | [.plain v] => (v, none)
  | [_, .plain _] => (none, some "second return value must be an error")
  | [r, .erro none] => (r.iface, none)
  | [r, .erro (some m)] => (r.iface, some m)
  | _ => (none, some "unexpected number of return values")

/-- Arity check, positional decoding and invocation of a resolved callable
(the body of `callbinding` after the lookup).  The second component is a
ghost log of the invocations performed (`v.Call` happens at most once). -/
def dispatchCall (f : GoFunc) (d : RpcMessage) :
    (Option GoValue × Option String) × List (List GoValue) :=
  if arityMismatch f d.Params then ((none, some "function arguments mismatch"), [])
  else
    match decodeArgs f d.Params with
    | .error e => ((none, some e), [])
    | .ok args => (interpretResults (f.call args), [args])

/-- Binding-table lookup; the Go map holds at most one entry per name, so the
table is an association list with in-place replacement. -/
def lookupBinding : List (String × GoFunc) → String → Option GoFunc
  | [], _ => none
  | (n, f) :: bs, m => if n = m then some f else lookupBinding bs m

/-- Map write `w.bindings[name] = f`: replace an existing entry in place, or
append a new one. -/
def setBinding : List (String × GoFunc) → String → GoFunc → List (String × GoFunc)
  | [], n, g => [(n, g)]
  | (m, f) :: bs, n, g => if m = n then (n, g) :: bs else (m, f) :: setBinding bs n g

/-- `callbinding` with the ghost invocation log: look the method up in the
binding table, return `(nil, nil)` when absent, otherwise dispatch. -/
def callbindingLog (bs : List (String × GoFunc)) (d : RpcMessage) :
    (Option GoValue × Option String) × List (List GoValue) :=
  match lookupBinding bs d.Method with
  | none => ((none, none), [])
  | some f => dispatchCall f d

/-- `callbinding` as in the source: the `(interface\x7b\x7d, error)` pair. -/
def callbinding (bs : List (String × GoFunc)) (d : RpcMessage) :
    Option GoValue × Option String :=
  (callbindingLog bs d).1

/-- Per-window state relevant to the RPC bridge: the binding table, the
deferred-closure queue (each queued closure evaluates one script, so it is
represented by that script), and the count of wake messages posted by
`Dispatch`. -/
structure WState where
  bindings : List (String × GoFunc)
  dispatchq : List String
  wakesPosted : Nat

/-- `Dispatch`: append the closure to the queue under the mutex and post one
`WM_APP` wake message to the owning thread. -/
def Dispatch (w : WState) (script : String) : WState :=
  { w with dispatchq := w.dispatchq ++ [script], wakesPosted := w.wakesPosted + 1 }

/-- Script text rejecting the promise slot `id` (the closure built in
`msgcb`'s error branches; the argument is `jsString(err.Error())`). -/
def rejectScript (id e : String) : String :=
  "window._rpc[" ++ id ++ "].reject(" ++ jsonQuote e ++ "); window._rpc[" ++ id ++
  "] = undefined"

/-- Script text resolving the promise slot `id` with marshaled body `b`. -/
def resolveScript (id b : String) : String :=
  "window._rpc[" ++ id ++ "].resolve(" ++ b ++ "); window._rpc[" ++ id ++ "] = undefined"

/-- The message callback `msgcb`.  Its input is the outcome of
`json.Unmarshal` on the inbound string: `.error` when the string is not
valid JSON for the `rpcMessage` wire shape (the callback logs and returns),
`.ok d` otherwise.  On a dispatch error it queues a rejection, otherwise it
marshals the result and queues a resolution. -/
def msgcb (w : WState) (parsed : Except String RpcMessage) : WState :=
  match parsed with
  | .error _ => w
  | .ok d =>
    let id := toString d.ID
    match callbinding w.bindings d with
    | (_, some err) => Dispatch w (rejectScript id err)
    | (res, none) =>
      match jsonMarshalRes res with
      | .error err => Dispatch w (rejectScript id err)
      | .ok b => Dispatch w (resolveScript id b)

/-- The argument passed to `Bind`: either a function value (with its
reflective description) or any non-function value. -/
inductive BindArg where
  | fn : GoFunc → BindArg
  | notFn : BindArg

/-- The bootstrap script injected by `Bind` for a given name, establishing
`window._rpc` and the proxy function. -/
def bootstrapScript (name : String) : String :=
  "(function() \x7b var name = " ++ jsonQuote name ++ ";" ++
  "\n\t\tvar RPC = window._rpc = (window._rpc || \x7bnextSeq: 1\x7d);" ++
  "\n\t\twindow[name] = function() \x7b" ++
  "\n\t\t  var seq = RPC.nextSeq++;" ++
  "\n\t\t  var promise = new Promise(function(resolve, reject) \x7b" ++
  "\n\t\t\tRPC[seq] = \x7b" ++
  "\n\t\t\t  resolve: resolve," ++
  "\n\t\t\t  reject: reject," ++
  "\n\t\t\t\x7d;" ++
  "\n\t\t  \x7d);" ++
  "\n\t\t  window.external.invoke(JSON.stringify(\x7b" ++
  "\n\t\t\tid: seq," ++
  "\n\t\t\tmethod: name," ++
  "\n\t\t\tparams: Array.prototype.slice.call(arguments)," ++
  "\n\t\t  \x7d));" ++
  "\n\t\t  return promise;" ++
  "\n\t\t\x7d" ++
  "\n\t\x7d)()"

/-- `Bind`: reject non-functions and functions with more than two results
before touching any state; otherwise store the binding under the mutex and
inject the bootstrap script via `Init`.  Returns the updated state, the
returned error, and the list of scripts injected by this call. -/
def webview.Bind (w : WState) (name : String) (a : BindArg) : WState × Option String × List String :=
  match a with
  | .notFn => (w, some "only functions can be bound", [])
  | .fn f =>
    if f.numOut > 2 then (w, some "function may only return a value or a value+error", [])
    else ({ w with bindings := setBinding w.bindings name f }, none, [bootstrapScript name])

/-- State of the message loop's deferred-closure machinery (`Run` and
`Dispatch`): the pending queue, the closures already run in order, and the
number of wake messages posted.  Closures are identified abstractly. -/
structure LoopState where
  dispatchq : List Nat
  ran : List Nat
  wakesPosted : Nat
deriving Repr, DecidableEq

/-- Events acting on the loop state: `Dispatch` of a closure from any
thread, or receipt of the `WM_APP` wake message by `Run`. -/
inductive LoopEvent where
  | dispatch : Nat → LoopEvent
  | wake : LoopEvent
deriving Repr, DecidableEq

/-- One step.  On `dispatch c`, `Dispatch` appends `c` under the mutex and
posts one wake message.  On `wake`, `Run` swaps the whole queue for an empty
one under the mutex and runs every swapped-out closure in append order. -/
def loopStep (s : LoopState) : LoopEvent → LoopState
  | .dispatch c =>
    { s with dispatchq := s.dispatchq ++ [c], wakesPosted := s.wakesPosted + 1 }
  | .wake => { s with dispatchq := [], ran := s.ran ++ s.dispatchq }

/-- The loop state reached from `s` after a sequence of events. -/
def loopRun (s : LoopState) (es : List LoopEvent) : LoopState :=
  es.foldl loopStep s

/-- The empty initial loop state. -/
def loopInit : LoopState := { dispatchq := [], ran := [], wakesPosted := 0 }

/-- Process-wide environment of the loader shim: whether loading the
system-installed `WebView2Loader` DLL plus symbol resolution succeeds
(`none`) or fails with an error text, and whether `winloader.LoadFromMemory`
on the embedded copy succeeds or fails. -/
structure LoaderEnv where
  nativeErr : Option String
  memLoadErr : Option String

/-- Mutable package state of the loader shim: whether the `sync.Once` has
fired, whether the in-memory module and its procs are available, and the
cached `memErr`. -/
structure LoaderState where
  memOnceDone : Bool
  memLoaded : Bool
  memErr : Option String
deriving Repr, DecidableEq

/-- Package state at process start. -/
def initLoaderState : LoaderState := { memOnceDone := false, memLoaded := false, memErr := none }

/-- The combined error text
`Unable to load WebView2Loader.dll from disk: %v -- or from memory: %w`. -/
def loaderBothErrMsg (ne me : String) : String :=
  "Unable to load WebView2Loader.dll from disk: " ++ ne ++ " -- or from memory: " ++ me

/-- `loadFromMemory`: under `memOnce.Do`, try the embedded copy once
process-wide; when the `Once` has already fired, the local `err` is left nil
and the cached state decides everything. -/
def loadFromMemory (env : LoaderEnv) (s : LoaderState) (ne : String) :
    LoaderState × Option String :=
  if s.memOnceDone then (s, none)
  else
    match env.memLoadErr with
    | some me =>
      ({ memOnceDone := true, memLoaded := false, memErr := some me },
       some (loaderBothErrMsg ne me))
    | none => ({ memOnceDone := true, memLoaded := true, memErr := none }, none)

/-- How one pass-through call of the loader shim ends: a call through the
disk-loaded DLL, a call through the in-memory module (`loaded = false` means
the call goes to a proc that was never resolved because the memory load had
failed), or an error return without calling either module. -/
inductive LoaderCallOutcome where
  | nativeCall : LoaderCallOutcome
  | memoryCall : Bool → LoaderCallOutcome
  | failed : String → LoaderCallOutcome
deriving Repr, DecidableEq

/-- `CompareBrowserVersions`: try the native DLL and symbol first; on
failure fall back to `loadFromMemory`, propagating the combined error (the
call site re-formats it from `nativeErr` and the cached `memErr`), otherwise
call the in-memory proc. -/
def CompareBrowserVersions (env : LoaderEnv) (s : LoaderState) :
    LoaderState × LoaderCallOutcome :=
  match env.nativeErr with
  | none => (s, .nativeCall)
  | some ne =>
    match loadFromMemory env s ne with
    | (s', some _) => (s', .failed (loaderBothErrMsg ne (s'.memErr.getD "<nil>")))
    | (s', none) => (s', .memoryCall s'.memLoaded)

/-- `GetInstalledVersion` of the loader shim: identical load-order and
fallback structure to `CompareBrowserVersions`. -/
def GetInstalledVersion (env : LoaderEnv) (s : LoaderState) :
    LoaderState × LoaderCallOutcome :=
  match env.nativeErr with
  | none => (s, .nativeCall)
  | some ne =>
    match loadFromMemory env s ne with
    | (s', some _) => (s', .failed (loaderBothErrMsg ne (s'.memErr.getD "<nil>")))
    | (s', none) => (s', .memoryCall s'.memLoaded)

/-- `CreateCoreWebView2EnvironmentWithOptions`: same load order, but the
error of `loadFromMemory` is returned as-is. -/
def CreateCoreWebView2EnvironmentWithOptions (env : LoaderEnv) (s : LoaderState) :
    LoaderState × LoaderCallOutcome :=
  match env.nativeErr with
  | none => (s, .nativeCall)
  | some ne =>
    match loadFromMemory env s ne with
    | (s', some e) => (s', .failed e)
    | (s', none) => (s', .memoryCall s'.memLoaded)

/-- Environment of the auto-install flow: result of the install-state query
(`none` = the query returned no info record, `some v` = a record with
version string `v`), the user-confirmation outcome, and the outcomes of the
file write, process start, process exit and file removal used by the
bootstrapper. -/
structure InstallerEnv where
  installedInfo : Option String
  confirm : Except String Bool
  writeErr : Option String
  startErr : Option String
  waitExit : Option Int
  removeErr : Option String

/-- `runInstaller`: start the extracted installer with `/silent /install`;
a start failure returns `(false, err)` before any process runs; an
`ExitError` from `Wait` maps to the exit status comparison; any other `Wait`
outcome returns `(true, nil)`.  The second component records whether the
installer process was actually started with the silent flags. -/
def runInstaller (env : InstallerEnv) : (Bool × Option String) × Bool :=
  match env.startErr with
  | some e => ((false, some e), false)
  | none =>
    match env.waitExit with
    | some code => ((code == 0, none), true)
    | none => ((true, none), true)

/-- Observable file-system effects of the bootstrapper: whether the embedded
installer was written to the temporary path, whether it was run with the
silent flags, and whether it was deleted afterwards. -/
structure BootstrapFx where
  wroteInstaller : Bool
  ranSilent : Bool
  removedInstaller : Bool
deriving Repr, DecidableEq

/-- No bootstrapper effect at all. -/
def noBootstrapFx : BootstrapFx :=
  { wroteInstaller := false, ranSilent := false, removedInstaller := false }

/-- `InstallUsingBootstrapper` (modelled from the in-repo `webviewloader`
copy, which the auto-install step invokes through its `webview2runtime`
equivalent): write the embedded installer to a temporary path, run it
silently, then delete it; the first failure aborts the sequence. -/
def InstallUsingBootstrapper (env : InstallerEnv) : (Bool × Option String) × BootstrapFx :=
  match env.writeErr with
  | some e => ((false, some e), noBootstrapFx)
  | none =>
    match runInstaller env with
    | ((_, some e), ran) =>
      ((false, some e), { wroteInstaller := true, ranSilent := ran, removedInstaller := false })
    | ((result, none), ran) =>
      match env.removeErr with
      | some e =>
        ((result, some e), { wroteInstaller := true, ranSilent := ran, removedInstaller := false })
      | none =>
        ((result, none), { wroteInstaller := true, ranSilent := ran, removedInstaller := true })

/-- Observable effects of the auto-install step: whether the user was
prompted, the error message boxes shown, and the bootstrapper's file
effects. -/
structure AutoInstallFx where
  prompted : Bool
  boxes : List String
  install : BootstrapFx
deriving Repr, DecidableEq

/-- The message-box text shown when the bootstrapper ran but did not install
correctly. -/
def installFailBoxMsg : String :=
  "    安装微软的WebView2组件失败，请：" ++
  "\n        1、关闭防火墙和某某卫士" ++
  "\n        2、确保外网能够正常访问" ++
  "\n        3、重新执行当前程序再试"

/-- The confirmed branch of `Webview2AutoInstall`: ask the user, and when
confirmed run the bootstrapper, surfacing any failure as a message box and
an error return. -/
def autoInstallPrompt (env : InstallerEnv) : Option String × AutoInstallFx :=
  match env.confirm with
  | .error e => (some e, { prompted := true, boxes := [], install := noBootstrapFx })
  | .ok false => (none, { prompted := true, boxes := [], install := noBootstrapFx })
  | .ok true =>
    match InstallUsingBootstrapper env with
    | ((_, some e), fx) => (some e, { prompted := true, boxes := [e], install := fx })
    | ((installedCorrectly, none), fx) =>
      if installedCorrectly then (none, { prompted := true, boxes := [], install := fx })
      else
        (some "install fail",
         { prompted := true, boxes := [installFailBoxMsg], install := fx })

/-- `Webview2AutoInstall`: return nil immediately when the install-state
query yields an info record with a non-empty version string; otherwise
prompt and possibly install. -/
def Webview2AutoInstall (env : InstallerEnv) : Option String × AutoInstallFx :=
  match env.installedInfo with
  | some v =>
    if v ≠ "" then (none, { prompted := false, boxes := [], install := noBootstrapFx })
    else autoInstallPrompt env
  | none => autoInstallPrompt env

/-- Occurrence count of a closure id in a run list. -/
def natCount (c : Nat) : List Nat → Nat
  | [] => 0
  | x :: xs => (if x = c then 1 else 0) + natCount c xs

/-- Number of `dispatch c` events in an event sequence. -/
def dispatchCount (c : Nat) : List LoopEvent → Nat
  | [] => 0
  | .dispatch x :: es => (if x = c then 1 else 0) + dispatchCount c es
  | .wake :: es => dispatchCount c es

lemma natCount_append (c : Nat) (a b : List Nat) :
    natCount c (a ++ b) = natCount c a + natCount c b := by
  induction a with
  | nil => simp [natCount]
  | cons x xs ih => simp [natCount, ih]; ring

lemma loopRun_count (c : Nat) (es : List LoopEvent) (s : LoopState) :
    natCount c (loopRun s es).ran + natCount c (loopRun s es).dispatchq
      = natCount c s.ran + natCount c s.dispatchq + dispatchCount c es := by
  induction es generalizing s with
  | nil => simp [loopRun, dispatchCount]
  | cons e es ih =>
    cases e with
    | dispatch x =>
      have h := ih (loopStep s (.dispatch x))
      simp [loopRun] at h ⊢
      rw [h]
      simp [loopStep, natCount_append, natCount, dispatchCount]
      ring
    | wake =>
      have h := ih (loopStep s .wake)
      simp [loopRun] at h ⊢
      rw [h]
      simp [loopStep, natCount_append, natCount, dispatchCount]

lemma lookup_setBinding (bs : List (String × GoFunc)) (n : String) (g : GoFunc) :
    lookupBinding (setBinding bs n g) n = some g := by
  induction bs with
  | nil => simp [setBinding, lookupBinding]
  | cons p bs ih =>
    by_cases h : p.1 = n
    · simp [setBinding, h, lookupBinding]
    · simp [setBinding, h, lookupBinding, ih]

/-- Sample callable: fixed arity 2 over ints, one plain result holding the
sum. -/
def sampleAdd : GoFunc where
  inTypes := [.tInt, .tInt]
  isVariadic := false
  numOut := 1
  call := fun args =>
    [.plain (some (.vInt (match args with
      | [.vInt a, .vInt b] => a + b
      | _ => 0)))]

/-- Sample callable: fixed arity 1 over ints, one plain result holding the
negation. -/
def sampleNeg : GoFunc where
  inTypes := [.tInt]
  isVariadic := false
  numOut := 1
  call := fun args =>
    [.plain (some (.vInt (match args with
      | [.vInt a] => -a
      | _ => 0)))]

/-- A window state binding `sampleAdd` under the name `add`. -/
def addState : WState where
  bindings := [("add", sampleAdd)]
  dispatchq := []
  wakesPosted := 0

/-- The empty window state. -/
def emptyState : WState where
  bindings := []
  dispatchq := []
  wakesPosted := 0

/-- C10: an inbound message string that is not valid JSON for the
`\x7bid, method, params\x7d` wire shape is dropped after logging: no
callable is invoked, no script is queued for evaluation, and the binding
table and dispatch queue are unchanged — `msgcb` returns the state
untouched. -/
theorem C10_invalid_message_dropped (w : WState) (e : String) :
    msgcb w (.error e) = w := rfl

/-- C2 counterexample: with an empty binding table, a well-formed call to
the unregistered method `missing` does not leave the promise pending — it
queues a script that RESOLVES slot 1 with `null`, contradicting the claim
that no resolution is produced. -/
theorem C2_counterexample :
    msgcb emptyState (.ok { ID := 1, Method := "missing", Params := [] })
      = { bindings := [],
          dispatchq := ["window._rpc[1].resolve(null); window._rpc[1] = undefined"],
          wakesPosted := 1 } := by
  rfl

/-- C2 amended: for every well-formed RPC message whose method name is not
present in the binding table, the dispatcher queues a RESOLUTION of the
page-side promise slot with `null` (exactly as for a zero-result callable);
the promise settles rather than staying pending. -/
theorem C2_unknown_method_resolves_null (w : WState) (d : RpcMessage)
    (h : lookupBinding w.bindings d.Method = none) :
    msgcb w (.ok d) = Dispatch w (resolveScript (toString d.ID) "null") := by
  simp [msgcb, callbinding, callbindingLog, h, jsonMarshalRes, marshalIface]

/-- C2 amended, witness at a concrete input. -/
theorem C2_unknown_method_resolves_null_witness :
    msgcb emptyState (.ok { ID := 7, Method := "nope", Params := [] })
      = Dispatch emptyState (resolveScript (toString (7 : Int)) "null") :=
  C2_unknown_method_resolves_null emptyState { ID := 7, Method := "nope", Params := [] } rfl

/-- C1: for every registered callable whose arity check and positional
decoding succeed, the dispatcher interprets the call's return values by
arity: zero results resolve the promise slot with `null`; a single
error-shaped result rejects with its text when non-nil and resolves with
`null` when nil; a single non-error result resolves with the marshaled
value; two results resolve with the marshaled first value when the second
(error-shaped) one is nil, and reject with the error's text otherwise. -/
theorem C1_return_values_by_arity (w : WState) (d : RpcMessage) (f : GoFunc)
    (args : List GoValue)
    (hf : lookupBinding w.bindings d.Method = some f)
    (ha : arityMismatch f d.Params = false)
    (hd : decodeArgs f d.Params = .ok args) :
    (f.call args = [] →
      msgcb w (.ok d) = Dispatch w (resolveScript (toString d.ID) "null")) ∧
    (∀ e, f.call args = [.erro (some e)] →
      msgcb w (.ok d) = Dispatch w (rejectScript (toString d.ID) e)) ∧
    (f.call args = [.erro none] →
      msgcb w (.ok d) = Dispatch w (resolveScript (toString d.ID) "null")) ∧
    (∀ v, f.call args = [.plain v] →
      msgcb w (.ok d) = Dispatch w (resolveScript (toString d.ID) (marshalIface v))) ∧
    (∀ r, f.call args = [r, .erro none] →
      msgcb w (.ok d) =
        Dispatch w (resolveScript (toString d.ID) (marshalIface r.iface))) ∧
    (∀ r e, f.call args = [r, .erro (some e)] →
      msgcb w (.ok d) = Dispatch w (rejectScript (toString d.ID) e)) := by
  refine ⟨fun h => ?_, fun e h => ?_, fun h => ?_, fun v h => ?_, fun r h => ?_,
    fun r e h => ?_⟩ <;>
    simp [msgcb, callbinding, callbindingLog, hf, dispatchCall, ha, hd, h,
      interpretResults, jsonMarshalRes, marshalIface]

/-- C1, witness: calling `add` (fixed arity 2) with params `[2, 3]` resolves
promise slot 1 with `5`. -/
theorem C1_return_values_by_arity_witness :
    msgcb addState (.ok { ID := 1, Method := "add", Params := [.num 2, .num 3] })
      = Dispatch addState
          (resolveScript (toString (1 : Int)) (marshalIface (some (.vInt 5)))) :=
  (C1_return_values_by_arity addState
      { ID := 1, Method := "add", Params := [.num 2, .num 3] }
      sampleAdd [.vInt 2, .vInt 3] rfl rfl rfl).2.2.2.1 (some (.vInt 5)) rfl

/-- C3: for every registered callable, a param count failing the arity test
(fixed arity: not exactly `numIn`; variadic: fewer than `numIn-1`) makes the
dispatch fail with the arity-mismatch error and never invokes the callable
(empty invocation log); with exactly `numIn` well-typed params on a
fixed-arity callable, the callable is invoked exactly once with the decoded
values in order. -/
theorem C3_arity_check (bs : List (String × GoFunc)) (d : RpcMessage) (f : GoFunc)
    (hf : lookupBinding bs d.Method = some f) :
    (f.isVariadic = true → d.Params.length < f.numIn - 1 →
      callbindingLog bs d = ((none, some "function arguments mismatch"), [])) ∧
    (f.isVariadic = false → d.Params.length ≠ f.numIn →
      callbindingLog bs d = ((none, some "function arguments mismatch"), [])) ∧
    (∀ args, f.isVariadic = false → d.Params.length = f.numIn →
      decodeArgs f d.Params = .ok args →
      callbindingLog bs d = (interpretResults (f.call args), [args])) := by
  refine ⟨fun hv hl => ?_, fun hv hl => ?_, fun args hv hl hd => ?_⟩
  · have hm : arityMismatch f d.Params = true := by simp [arityMismatch, hv, hl]
    simp [callbindingLog, hf, dispatchCall, hm]
  · have hm : arityMismatch f d.Params = true := by simp [arityMismatch, hv, hl]
    simp [callbindingLog, hf, dispatchCall, hm]
  · have hm : arityMismatch f d.Params = false := by simp [arityMismatch, hv, hl]
    simp [callbindingLog, hf, dispatchCall, hm, hd]

/-- C3, witness: `add` called with a single param fails the arity check with
an empty invocation log, and called with `[2, 3]` is invoked once with the
decoded arguments in order. -/
theorem C3_arity_check_witness :
    callbindingLog addState.bindings { ID := 1, Method := "add", Params := [.num 9] }
      = ((none, some "function arguments mismatch"), []) ∧
    callbindingLog addState.bindings { ID := 1, Method := "add", Params := [.num 2, .num 3] }
      = (interpretResults (sampleAdd.call [.vInt 2, .vInt 3]), [[.vInt 2, .vInt 3]]) :=
  ⟨(C3_arity_check addState.bindings { ID := 1, Method := "add", Params := [.num 9] }
      sampleAdd rfl).2.1 rfl (by decide),
   (C3_arity_check addState.bindings { ID := 1, Method := "add", Params := [.num 2, .num 3] }
      sampleAdd rfl).2.2 [.vInt 2, .vInt 3] rfl rfl rfl⟩

/-- C4: for every registered callable passing the arity test, a failure to
decode any positional param returns that decode error, never invokes the
callable (empty invocation log, no partial invocation), and queues a
rejection of the promise slot. -/
theorem C4_decode_error_rejects (w : WState) (d : RpcMessage) (f : GoFunc) (e : String)
    (hf : lookupBinding w.bindings d.Method = some f)
    (ha : arityMismatch f d.Params = false)
    (hd : decodeArgs f d.Params = .error e) :
    callbindingLog w.bindings d = ((none, some e), []) ∧
    msgcb w (.ok d) = Dispatch w (rejectScript (toString d.ID) e) := by
  constructor
  · simp [callbindingLog, hf, dispatchCall, ha, hd]
  · simp [msgcb, callbinding, callbindingLog, hf, dispatchCall, ha, hd]

/-- C4, witness: `add` called with `[1, "x"]` decodes the first param
successfully, fails on the second, is never invoked, and the promise slot is
rejected with the json decode error. -/
theorem C4_decode_error_rejects_witness :
    callbindingLog addState.bindings
        { ID := 4, Method := "add", Params := [.num 1, .str "x"] }
      = ((none, some "json: cannot unmarshal string into Go value of type int"), []) ∧
    msgcb addState (.ok { ID := 4, Method := "add", Params := [.num 1, .str "x"] })
      = Dispatch addState
          (rejectScript (toString (4 : Int))
            "json: cannot unmarshal string into Go value of type int") :=
  C4_decode_error_rejects addState
    { ID := 4, Method := "add", Params := [.num 1, .str "x"] }
    sampleAdd "json: cannot unmarshal string into Go value of type int" rfl rfl rfl

/-- C5: binding `f` and then `g` to the same name leaves the table mapping
that name to `g` alone, and every subsequent RPC call naming it dispatches
through `g` (last bind wins). -/
theorem C5_rebind_last_wins (w : WState) (name : String) (f g : GoFunc)
    (hf : f.numOut ≤ 2) (hg : g.numOut ≤ 2) :
    lookupBinding
        ((webview.Bind ((webview.Bind w name (.fn f)).1) name (.fn g)).1).bindings name
      = some g ∧
    ∀ d : RpcMessage, d.Method = name →
      callbindingLog
          ((webview.Bind ((webview.Bind w name (.fn f)).1) name (.fn g)).1).bindings d
        = dispatchCall g d := by
  have hbind : ((webview.Bind ((webview.Bind w name (.fn f)).1) name (.fn g)).1).bindings
      = setBinding (setBinding w.bindings name f) name g := by
    simp [webview.Bind, Nat.not_lt.mpr hf, Nat.not_lt.mpr hg]
  constructor
  · rw [hbind]; exact lookup_setBinding _ name g
  · intro d hm
    rw [hbind]
    simp [callbindingLog, hm, lookup_setBinding]

/-- C5, witness: rebinding `op` from `sampleAdd` to `sampleNeg` leaves the
table mapping `op` to `sampleNeg`. -/
theorem C5_rebind_last_wins_witness :
    lookupBinding
        ((webview.Bind ((webview.Bind emptyState "op" (.fn sampleAdd)).1) "op"
          (.fn sampleNeg)).1).bindings "op"
      = some sampleNeg :=
  (C5_rebind_last_wins emptyState "op" sampleAdd sampleNeg (by decide) (by decide)).1

/-- C6: on every receipt of the wake message the loop swaps the whole
accumulated deferred-closure queue for an empty one and runs every
swapped-out closure in append order; `Dispatch` appends the closure and
posts exactly one wake message; and over any event sequence from the initial
state, each closure id is run at most as often as it was dispatched (so a
closure enqueued once runs at most once). -/
theorem C6_wake_drains_queue :
    (∀ s : LoopState, loopStep s .wake =
      { dispatchq := [], ran := s.ran ++ s.dispatchq, wakesPosted := s.wakesPosted }) ∧
    (∀ (s : LoopState) (c : Nat), loopStep s (.dispatch c) =
      { dispatchq := s.dispatchq ++ [c], ran := s.ran,
        wakesPosted := s.wakesPosted + 1 }) ∧
    (∀ (es : List LoopEvent) (c : Nat),
      natCount c (loopRun loopInit es).ran ≤ dispatchCount c es) := by
  refine ⟨fun s => rfl, fun s c => rfl, fun es c => ?_⟩
  have h := loopRun_count c es loopInit
  have h0 : natCount c loopInit.ran = 0 := rfl
  have h1 : natCount c loopInit.dispatchq = 0 := rfl
  rw [h0, h1] at h
  omega

/-- Loader environment in which both the disk load and the memory load
fail. -/
def envBoth : LoaderEnv := { nativeErr := some "load failed", memLoadErr := some "bad image" }

/-- Loader package state after the one-time in-memory load has failed. -/
def failedLoaderState : LoaderState :=
  { memOnceDone := true, memLoaded := false, memErr := some "bad image" }

/-- C7 counterexample: when both the disk load and the memory load have
failed, only the FIRST pass-through call returns the error describing both
failures; the second call finds the one-time initializer already fired,
observes a nil error, and proceeds to call the never-resolved in-memory
procedure instead of returning an error — contradicting "every such call
returns an error describing both failures rather than proceeding". -/
theorem C7_counterexample :
    CompareBrowserVersions envBoth initLoaderState
      = (failedLoaderState, .failed (loaderBothErrMsg "load failed" "bad image")) ∧
    CompareBrowserVersions envBoth failedLoaderState
      = (failedLoaderState, .memoryCall false) := by
  constructor <;> rfl

/-- C7 amended: each pass-through call tries the system-installed loader DLL
first and falls back to the embedded in-memory copy only when the disk load
or symbol resolution fails; the in-memory copy is loaded at most once
process-wide; when both the disk and the memory load fail, the FIRST such
call returns an error describing both failures, while any later call finds
the one-time initializer spent, sees no error, and proceeds to invoke the
unresolved in-memory procedure. -/
theorem C7_loader_fallback (env : LoaderEnv) (s : LoaderState) :
    (env.nativeErr = none →
      CompareBrowserVersions env s = (s, .nativeCall) ∧
      GetInstalledVersion env s = (s, .nativeCall) ∧
      CreateCoreWebView2EnvironmentWithOptions env s = (s, .nativeCall)) ∧
    (∀ ne, s.memOnceDone = true → loadFromMemory env s ne = (s, none)) ∧
    (∀ ne me, env.nativeErr = some ne → env.memLoadErr = some me →
      CompareBrowserVersions env initLoaderState
        = ({ memOnceDone := true, memLoaded := false, memErr := some me },
           .failed (loaderBothErrMsg ne me)) ∧
      GetInstalledVersion env initLoaderState
        = ({ memOnceDone := true, memLoaded := false, memErr := some me },
           .failed (loaderBothErrMsg ne me)) ∧
      CreateCoreWebView2EnvironmentWithOptions env initLoaderState
        = ({ memOnceDone := true, memLoaded := false, memErr := some me },
           .failed (loaderBothErrMsg ne me))) ∧
    (∀ ne, env.nativeErr = some ne → env.memLoadErr = none →
      CompareBrowserVersions env initLoaderState
        = ({ memOnceDone := true, memLoaded := true, memErr := none },
           .memoryCall true) ∧
      GetInstalledVersion env initLoaderState
        = ({ memOnceDone := true, memLoaded := true, memErr := none },
           .memoryCall true) ∧
      CreateCoreWebView2EnvironmentWithOptions env initLoaderState
        = ({ memOnceDone := true, memLoaded := true, memErr := none },
           .memoryCall true)) ∧
    (∀ ne, env.nativeErr = some ne → s.memOnceDone = true → s.memLoaded = false →
      CompareBrowserVersions env s = (s, .memoryCall false) ∧
      GetInstalledVersion env s = (s, .memoryCall false) ∧
      CreateCoreWebView2EnvironmentWithOptions env s = (s, .memoryCall false)) := by
  refine ⟨fun h => ?_, fun ne h => ?_, fun ne me h1 h2 => ?_, fun ne h1 h2 => ?_,
    fun ne h1 h2 h3 => ?_⟩
  · exact ⟨by simp [CompareBrowserVersions, h], by simp [GetInstalledVersion, h],
      by simp [CreateCoreWebView2EnvironmentWithOptions, h]⟩
  · simp [loadFromMemory, h]
  · refine ⟨?_, ?_, ?_⟩
    · simp [CompareBrowserVersions, h1, loadFromMemory, initLoaderState, h2]
    · simp [GetInstalledVersion, h1, loadFromMemory, initLoaderState, h2]
    · simp [CreateCoreWebView2EnvironmentWithOptions, h1, loadFromMemory,
        initLoaderState, h2]
  · refine ⟨?_, ?_, ?_⟩
    · simp [CompareBrowserVersions, h1, loadFromMemory, initLoaderState, h2]
    · simp [GetInstalledVersion, h1, loadFromMemory, initLoaderState, h2]
    · simp [CreateCoreWebView2EnvironmentWithOptions, h1, loadFromMemory,
        initLoaderState, h2]
  · refine ⟨?_, ?_, ?_⟩
    · simp [CompareBrowserVersions, h1, loadFromMemory, h2, h3]
    · simp [GetInstalledVersion, h1, loadFromMemory, h2, h3]
    · simp [CreateCoreWebView2EnvironmentWithOptions, h1, loadFromMemory, h2, h3]

/-- C7 amended, witness: with the disk load failing with `load failed` and
the memory load failing with `bad image`, the first call to each of the
three pass-through operations returns the combined error. -/
theorem C7_loader_fallback_witness :
    CompareBrowserVersions envBoth initLoaderState
      = ({ memOnceDone := true, memLoaded := false, memErr := some "bad image" },
         .failed (loaderBothErrMsg "load failed" "bad image")) ∧
    GetInstalledVersion envBoth initLoaderState
      = ({ memOnceDone := true, memLoaded := false, memErr := some "bad image" },
         .failed (loaderBothErrMsg "load failed" "bad image")) ∧
    CreateCoreWebView2EnvironmentWithOptions envBoth initLoaderState
      = ({ memOnceDone := true, memLoaded := false, memErr := some "bad image" },
         .failed (loaderBothErrMsg "load failed" "bad image")) :=
  (C7_loader_fallback envBoth initLoaderState).2.2.1 "load failed" "bad image" rfl rfl

/-- C8: the auto-install step returns nil without prompting whenever the
install-state query yields a record with a non-empty version string; when
the version is absent and the user confirms, the embedded installer is
written to a temporary path, run with the silent-install flags and deleted;
and any failure inside that install sequence surfaces a message box and an
error to the caller (both for a propagated error and for an unsuccessful
exit status). -/
theorem C8_auto_install (env : InstallerEnv) :
    (∀ v, env.installedInfo = some v → v ≠ "" →
      Webview2AutoInstall env
        = (none, { prompted := false, boxes := [], install := noBootstrapFx })) ∧
    ((env.installedInfo = none ∨ env.installedInfo = some "") →
      env.confirm = .ok true → env.writeErr = none → env.startErr = none →
      env.waitExit = none → env.removeErr = none →
      Webview2AutoInstall env
        = (none,
           { prompted := true, boxes := [],
             install := { wroteInstaller := true, ranSilent := true,
                          removedInstaller := true } })) ∧
    (∀ e, (env.installedInfo = none ∨ env.installedInfo = some "") →
      env.confirm = .ok true → (InstallUsingBootstrapper env).1.2 = some e →
      Webview2AutoInstall env
        = (some e,
           { prompted := true, boxes := [e],
             install := (InstallUsingBootstrapper env).2 })) ∧
    ((env.installedInfo = none ∨ env.installedInfo = some "") →
      env.confirm = .ok true → (InstallUsingBootstrapper env).1 = (false, none) →
      Webview2AutoInstall env
        = (some "install fail",
           { prompted := true, boxes := [installFailBoxMsg],
             install := (InstallUsingBootstrapper env).2 })) := by
  refine ⟨fun v h hv => ?_, fun h hc hw hs hx hr => ?_, fun e h hc hI => ?_,
    fun h hc hI => ?_⟩
  · simp [Webview2AutoInstall, h, hv]
  · rcases h with h | h <;>
      simp [Webview2AutoInstall, h, autoInstallPrompt, hc, InstallUsingBootstrapper,
        hw, runInstaller, hs, hx, hr]
  · rcases hJ : InstallUsingBootstrapper env with ⟨⟨b, errOpt⟩, fx⟩
    rw [hJ] at hI
    simp at hI
    subst hI
    rcases h with h | h <;>
      simp [Webview2AutoInstall, h, autoInstallPrompt, hc, hJ]
  · rcases hJ : InstallUsingBootstrapper env with ⟨⟨b, errOpt⟩, fx⟩
    rw [hJ] at hI
    simp at hI
    rcases hI with ⟨hb, herr⟩
    subst hb; subst herr
    rcases h with h | h <;>
      simp [Webview2AutoInstall, h, autoInstallPrompt, hc, hJ]

/-- Installer environment with the runtime already installed. -/
def envInstalled : InstallerEnv :=
  { installedInfo := some "95.0.1020.44", confirm := .ok true, writeErr := none,
    startErr := none, waitExit := none, removeErr := none }

/-- Installer environment with no runtime installed and every step of the
confirmed install sequence succeeding. -/
def envFreshInstall : InstallerEnv :=
  { installedInfo := none, confirm := .ok true, writeErr := none,
    startErr := none, waitExit := none, removeErr := none }

/-- C8, witness: a reported version skips the prompt entirely, and a
confirmed fresh install writes, runs and deletes the bootstrapper with no
message box. -/
theorem C8_auto_install_witness :
    Webview2AutoInstall envInstalled
      = (none, { prompted := false, boxes := [], install := noBootstrapFx }) ∧
    Webview2AutoInstall envFreshInstall
      = (none,
         { prompted := true, boxes := [],
           install := { wroteInstaller := true, ranSilent := true,
                        removedInstaller := true } }) :=
  ⟨(C8_auto_install envInstalled).1 "95.0.1020.44" rfl (by decide),
   (C8_auto_install envFreshInstall).2.1 (Or.inl rfl) rfl rfl rfl rfl rfl⟩

/-- C9: `Bind` rejects a non-function argument and a function with more than
two results with an error, leaving the binding table untouched and
injecting no script; for every accepted function it stores the binding
under the name and injects the bootstrap script exactly once. -/
theorem C9_bind_validation (w : WState) (name : String) :
    (webview.Bind w name .notFn = (w, some "only functions can be bound", [])) ∧
    (∀ f : GoFunc, 2 < f.numOut →
      webview.Bind w name (.fn f)
        = (w, some "function may only return a value or a value+error", [])) ∧
    (∀ f : GoFunc, f.numOut ≤ 2 →
      webview.Bind w name (.fn f)
        = ({ w with bindings := setBinding w.bindings name f }, none,
           [bootstrapScript name]) ∧
      lookupBinding (webview.Bind w name (.fn f)).1.bindings name = some f) := by
  refine ⟨rfl, fun f hf => ?_, fun f hf => ⟨?_, ?_⟩⟩
  · simp [webview.Bind, hf]
  · simp [webview.Bind, Nat.not_lt.mpr hf]
  · simp [webview.Bind, Nat.not_lt.mpr hf, lookup_setBinding]

/-- Sample function value with three results, rejected by `Bind`. -/
def sampleThree : GoFunc where
  inTypes := []
  isVariadic := false
  numOut := 3
  call := fun _ => [.plain none, .plain none, .erro none]

/-- C9, witness: binding a three-result function fails without effect, and
binding `sampleNeg` stores it and injects the bootstrap script once. -/
theorem C9_bind_validation_witness :
    webview.Bind emptyState "f3" (.fn sampleThree)
      = (emptyState, some "function may only return a value or a value+error", []) ∧
    webview.Bind emptyState "neg" (.fn sampleNeg)
      = ({ emptyState with bindings := setBinding emptyState.bindings "neg" sampleNeg },
         none, [bootstrapScript "neg"]) :=
  ⟨(C9_bind_validation emptyState "f3").2.1 sampleThree (by decide),
   ((C9_bind_validation emptyState "neg").2.2 sampleNeg (by decide)).1⟩
